import Mathlib

/-!
Verification of the PackageKit transaction-client engine (`pk-client.c`).

The definitions below are a shallow embedding of the client: the
`PkClientPrivate` struct becomes the `Client` structure, each C function
becomes a Lean function threading the client state explicitly, and every
interaction with the outside world (the daemon's transaction-id allocator,
the D-Bus proxy calls, the PolicyKit privilege broker) is an input chosen
by an `Env` value.  A `dbus_g_proxy_call` outcome is `Option GError`
(`none` = the call returned TRUE).  Each action records the transaction
proxy method calls it performed in a `BusCall` list so that theorems can
speak about how often and with which arguments the bus was used.
-/

/-- Error codes of the client error domain, from `pk_client_error_get_type`
(PK_CLIENT_ERROR_FAILED .. PK_CLIENT_ERROR_INVALID_PACKAGEID). -/
inductive PkClientErrorCode where
  | failed
  | failedAuth
  | noTid
  | alreadyTid
  | roleUnknown
  | invalidPackageId
  deriving DecidableEq, Repr

/-- The code field of a GError: either the transport layer's generic
remote-exception classification (DBUS_GERROR_REMOTE_EXCEPTION in the
DBUS_GERROR domain) or one of the client's own codes. -/
inductive GErrorCode where
  | dbusRemoteException
  | client (c : PkClientErrorCode)
  deriving DecidableEq, Repr

/-- A GError as the client observes it: domain, code, the D-Bus error name
(meaningful for remote exceptions, read by `dbus_g_error_get_name`) and the
human-readable message. -/
structure GError where
  domainIsDBus : Bool
  code : GErrorCode
  dbusName : String
  message : String
  deriving DecidableEq, Repr

/-- Builds the GError that `pk_client_error_set (error, code, ...)` produces:
an error of the client domain with the given code and formatted message. -/
def pk_client_error_mk (c : PkClientErrorCode) (msg : String) : GError :=
  { domainIsDBus := false, code := .client c, dbusName := "", message := msg }

/-- Embeds `pk_client_error_fixup`: when the error carries the transport
layer's generic remote-exception classification, its code is rewritten to
the local Failed code; nothing else (in particular the message) changes. -/
def pk_client_error_fixup (e : GError) : GError :=
  if e.domainIsDBus && e.code == .dbusRemoteException then
    { e with code := .client .failed }
  else
    e

/-- Modelled from the spec: the D-Bus error name under which the daemon
reports a privileged call refused by PolicyKit (the "denied by policy"
classification; `pk-polkit-client.c` is not part of the staged sources). -/
def refusedByPolicyName : String := "org.freedesktop.PackageKit.RefusedByPolicy"

/-- Modelled from the spec: `pk_polkit_client_error_denied_by_policy`
(in `pk-polkit-client.c`, outside the staged sources) recognises a policy
denial as a remote exception carrying the refused-by-policy D-Bus error
name; a NULL error is never a denial. -/
def pk_polkit_client_error_denied_by_policy : Option GError → Bool
  | none => false
  | some e => e.domainIsDBus && e.code == .dbusRemoteException
      && e.dbusName == refusedByPolicyName

/-- Modelled from the spec: the external package-id validator — a
package id is four semicolon-delimited fields (name, version,
architecture, source), so exactly three semicolons occur in the text.
Stands for `pk_package_id_check`. -/
def pk_package_id_check (package_id : String) : Bool :=
  package_id.data.count ';' == 3

/-- Modelled from the spec: `pk_package_ids_check` validates every id of
the array with the package-id validator. -/
def pk_package_ids_check (package_ids : List String) : Bool :=
  package_ids.all pk_package_id_check

/-- Modelled from the spec: `pk_package_ids_to_text` joins the ids with the
given delimiter (used only to build diagnostic messages). -/
def pk_package_ids_to_text (package_ids : List String) (delim : String) : String :=
  String.intercalate delim package_ids

/-- The roles of `PkRoleEnum` that the client can set or dispatch on. -/
inductive PkRoleEnum where
  | unknown
  | getDepends
  | getUpdateDetail
  | resolve
  | rollback
  | getDetails
  | getFiles
  | getRequires
  | getUpdates
  | searchDetails
  | searchFile
  | searchGroup
  | searchName
  | installPackages
  | installFiles
  | installSignature
  | refreshCache
  | removePackages
  | updatePackages
  | updateSystem
  | getRepoList
  | whatProvides
  | getPackages
  | acceptEula
  | repoEnable
  | repoSetData
  | getOldTransactions
  deriving DecidableEq, Repr

/-- The transaction statuses the client itself stores: unknown (initial and
after reset), the locally synthesized waiting status, or any other decoded
status text. -/
inductive PkStatusEnum where
  | unknown
  | wait
  | other (text : String)
  deriving DecidableEq, Repr

/-- Modelled from the spec: the ordered restart-severity enumeration
(`PkRestartEnum`; `pk-enum.h` is not among the staged sources).  Severity
grows from none to the security restarts. -/
inductive PkRestartEnum where
  | none
  | application
  | session
  | system
  | securitySession
  | securitySystem
  deriving DecidableEq, Repr

/-- The numeric value behind a `PkRestartEnum`; the C code compares the
enum constants as integers. -/
def restartSeverity : PkRestartEnum → Nat
  | .none => 0
  | .application => 1
  | .session => 2
  | .system => 3
  | .securitySession => 4
  | .securitySystem => 5

/-- Signature types (`PkSigTypeEnum`): only unknown and gpg are used by the
client (`install_signature` refuses unknown, `requeue` re-issues gpg). -/
inductive PkSigTypeEnum where
  | unknown
  | gpg
  deriving DecidableEq, Repr

/-- Provides kinds (`PkProvidesEnum`), stored in the cached request. -/
inductive PkProvidesEnum where
  | unknown
  | any
  | modalias
  | codec
  | mimetype
  deriving DecidableEq, Repr

/-- Filters (`PkFilterEnum`) are a bitmask serialized to text for the bus;
the client treats the value opaquely, so a number models it. -/
abbrev PkFilterEnum := Nat

/-- PK_FILTER_ENUM_UNKNOWN, the reset/initial filter value. -/
def PK_FILTER_ENUM_UNKNOWN : PkFilterEnum := 0

/-- Modelled from the spec: `pk_filter_enums_to_text` serializes the filter
bitmask to its textual bus representation (injective encoding). -/
def pk_filter_enums_to_text (filters : PkFilterEnum) : String :=
  toString filters

/-- Modelled from the spec: `pk_sig_type_enum_to_text`. -/
def pk_sig_type_enum_to_text : PkSigTypeEnum → String
  | .unknown => "unknown"
  | .gpg => "gpg"

/-- One row of the package result buffer (`PkPackageList`): the decoded
info kind (kept as its text), the package id and the summary. -/
structure PkPackageItem where
  info : String
  package_id : String
  summary : String
  deriving DecidableEq, Repr

/-- One method call on the bound transaction's D-Bus proxy, with the
arguments marshalled into it.  Actions append to a list of these so the
theorems can count dispatches and inspect their arguments. -/
inductive BusCall where
  | updateSystem
  | searchName (filter_text search : String)
  | searchDetails (filter_text search : String)
  | searchGroup (filter_text search : String)
  | searchFile (filter_text search : String)
  | getDepends (filter_text package_id : String) (recursive : Bool)
  | getRequires (filter_text package_id : String) (recursive : Bool)
  | getUpdateDetail (package_id : String)
  | rollback (transaction_id : String)
  | resolve (filter_text package : String)
  | getDetails (package_id : String)
  | getFiles (package_id : String)
  | removePackages (package_ids : List String) (allow_deps autoremove : Bool)
  | refreshCache (force : Bool)
  | installPackages (package_ids : List String)
  | installSignature (type_text key_id package_id : String)
  | updatePackages (package_ids : List String)
  | installFiles (trusted : Bool) (files : List String)
  | getRepoList (filter_text : String)
  | acceptEula (eula_id : String)
  | repoEnable (repo_id : String) (enabled : Bool)
  | repoSetData (repo_id parameter value : String)
  | getUpdates (filter_text : String)
  | cancel
  deriving DecidableEq, Repr

/-- The `PkClientPrivate` state.  C strings that may be NULL and are only
read back as opaque values are plain `String` with "" for NULL, except the
transaction id whose NULLness the code branches on.  `proxyConnected`
stands for `proxy != NULL` together with the connected signal handlers. -/
structure Client where
  tid : Option String
  proxyConnected : Bool
  is_finished : Bool
  use_buffer : Bool
  synchronous : Bool
  last_status : PkStatusEnum
  require_restart : PkRestartEnum
  role : PkRoleEnum
  package_list : List PkPackageItem
  cached_force : Bool
  cached_allow_deps : Bool
  cached_autoremove : Bool
  cached_trusted : Bool
  cached_package_id : String
  cached_package_ids : List String
  cached_transaction_id : String
  cached_key_id : String
  cached_full_path : String
  cached_full_paths : List String
  cached_search : String
  cached_provides : PkProvidesEnum
  cached_filters : PkFilterEnum
  deriving DecidableEq, Repr

/-- The freshly initialised client of `pk_client_init`. -/
def pk_client_new : Client :=
  { tid := none, proxyConnected := false, is_finished := false, use_buffer := false, synchronous := false, last_status := .unknown, require_restart := .none, role := .unknown, package_list := [], cached_force := false, cached_allow_deps := false, cached_autoremove := false, cached_trusted := false, cached_package_id := "", cached_package_ids := [], cached_transaction_id := "", cached_key_id := "", cached_full_path := "", cached_full_paths := [], cached_search := "", cached_provides := .unknown, cached_filters := PK_FILTER_ENUM_UNKNOWN }

/-- The environment an action runs against: the daemon's reply to
`pk_control_allocate_transaction_id` (`none` = allocation failed, with the
error it reported), whether `dbus_g_proxy_new_for_name` yields a proxy, the
outcomes of the first and of the possible second dispatch of the action's
bus method, and the privilege broker's verdict
(`pk_polkit_client_gain_privilege_str`). -/
structure Env where
  allocTid : Option String
  allocErr : GError
  proxyOk : Bool
  call1 : Option GError
  call2 : Option GError
  grant : Bool
  deriving Repr

/-- What a public action call returns and leaves behind: the C boolean
return, the propagated GError (if any), the client state afterwards,
whether `pk_control_allocate_transaction_id` was invoked, and the
transaction proxy calls that were made. -/
structure ActionOut where
  ret : Bool
  err : Option GError
  st : Client
  allocated : Bool
  bus : List BusCall
  deriving DecidableEq, Repr

/-- Embeds `pk_client_change_status`: emits status-changed (signal emission
is not part of the state) and records the last status. -/
def pk_client_change_status (st : Client) (status : PkStatusEnum) : Client :=
  { st with last_status := status }

/-- Embeds `pk_client_finished_cb`: marks this instance finished before the
signal is emitted (and quits the private loop in synchronous mode). -/
def pk_client_finished_cb (st : Client) (_exit_text : String) (_runtime : Nat) : Client :=
  { st with is_finished := true }

/-- Embeds `pk_client_package_cb`: emits the package signal and appends the
row to the package list when buffering or synchronous mode is on. -/
def pk_client_package_cb (st : Client) (info_text package_id summary : String) : Client :=
  if st.use_buffer || st.synchronous then
    { st with package_list := st.package_list ++ [⟨info_text, package_id, summary⟩] }
  else
    st

/-- Embeds `pk_client_require_restart_cb` (the restart argument is the
already decoded `pk_restart_enum_from_text` value): the tracked level is
raised when the event is strictly more severe, otherwise kept. -/
def pk_client_require_restart_cb (st : Client) (restart : PkRestartEnum)
    (_details : String) : Client :=
  if restartSeverity st.require_restart < restartSeverity restart then
    { st with require_restart := restart }
  else
    st

/-- Embeds `pk_client_status_changed_cb`: decodes and records the status. -/
def pk_client_status_changed_cb (st : Client) (status : PkStatusEnum) : Client :=
  pk_client_change_status st status

/-- Embeds `pk_client_get_require_restart`. -/
def pk_client_get_require_restart (st : Client) : PkRestartEnum :=
  st.require_restart

/-- Embeds `pk_client_get_package_list`: NULL (`none`) unless the client
opted into the package buffer, else a referenced snapshot of the list. -/
def pk_client_get_package_list (st : Client) : Option (List PkPackageItem) :=
  if !st.use_buffer then none else some st.package_list

/-- The inbound events of a bound transaction that touch the client state
(signal re-emission to observers carries no state).  Progress and the other
purely re-emitted events are `inert`. -/
inductive TransEvent where
  | package (info_text package_id summary : String)
  | statusChanged (status : PkStatusEnum)
  | requireRestart (restart : PkRestartEnum) (details : String)
  | finished (exit_text : String) (runtime : Nat)
  | inert
  deriving DecidableEq, Repr

/-- Routes one inbound event to its connected callback (the signal table of
`pk_client_set_tid`). -/
def pk_client_deliver (st : Client) (ev : TransEvent) : Client :=
  match ev with
  | .package i p s => pk_client_package_cb st i p s
  | .statusChanged s => pk_client_status_changed_cb st s
  | .requireRestart r d => pk_client_require_restart_cb st r d
  | .finished e r => pk_client_finished_cb st e r
  | .inert => st

/-- Embeds `pk_client_set_tid`: refuses a client whose tid is already set,
otherwise obtains a proxy for the transaction, stores the tid and connects
all signal handlers. -/
def pk_client_set_tid (st : Client) (env : Env) (tid : String) :
    Bool × Option GError × Client :=
  if st.tid.isSome then
    (false, some (pk_client_error_mk .alreadyTid
      "cannot set the tid on an already set client"), st)
  else if !env.proxyOk then
    (false, some (pk_client_error_mk .alreadyTid
      ("Cannot connect to PackageKit tid " ++ tid)), st)
  else
    (true, none, { st with tid := some tid, proxyConnected := true })

/-- Embeds `pk_client_allocate_transaction_id`: asks the control object for
a fresh tid and binds it with `pk_client_set_tid`. -/
def pk_client_allocate_transaction_id (st : Client) (env : Env) :
    Bool × Option GError × Client :=
  match env.allocTid with
  | none => (false, some env.allocErr, st)
  | some tid => pk_client_set_tid st env tid

/-- Embeds `g_str_has_suffix` on the message text. -/
def g_str_has_suffix (s suffix : String) : Bool :=
  suffix.data.isSuffixOf s.data

/-- Embeds `pk_client_cancel`: trivially succeeds with no bus interaction
when no proxy is bound; issues Cancel otherwise, absorbing the two
"already not running" remote errors into success and normalizing (fixing
up) every other remote error into a returned failure. -/
def pk_client_cancel (st : Client) (remote : Option GError) :
    Bool × Option GError × List BusCall :=
  if !st.proxyConnected then
    (true, none, [])
  else
    match remote with
    | none => (true, none, [.cancel])
    | some e =>
      if e.message == "cancelling a non-running transaction"
          || g_str_has_suffix e.message " doesn't exist\n" then
        (true, none, [.cancel])
      else
        (false, some (pk_client_error_fixup e), [.cancel])

/-- The straight-line clearing block of `pk_client_reset` (lines 3516-3541):
frees the tid and every cached string/array, disconnects the proxy, resets
filters, status, role and the finished flag, and clears the package list. -/
def pk_client_reset_clear (st : Client) : Client :=
  { st with
    tid := none
    proxyConnected := false
    cached_package_id := ""
    cached_key_id := ""
    cached_transaction_id := ""
    cached_full_path := ""
    cached_full_paths := []
    cached_search := ""
    cached_package_ids := []
    cached_filters := PK_FILTER_ENUM_UNKNOWN
    last_status := .unknown
    role := .unknown
    is_finished := false
    package_list := [] }

/-- Embeds `pk_client_reset`: a bound, unfinished transaction is cancelled
first (a failed cancel fails the reset and leaves the state unchanged);
then the clearing block runs. -/
def pk_client_reset (st : Client) (cancelRemote : Option GError) :
    Bool × Option GError × Client :=
  if st.tid.isSome && !st.is_finished then
    match pk_client_cancel st cancelRemote with
    | (false, e, _) => (false, e, st)
    | (true, _, _) => (true, none, pk_client_reset_clear st)
  else
    (true, none, pk_client_reset_clear st)

/-- The shared shape of every `*_action` helper: fail with NoTid when no
proxy is bound, otherwise issue exactly this one bus method call with the
environment-chosen outcome. -/
def pk_client_proxy_call (call : BusCall) (st : Client) (outcome : Option GError) :
    Bool × Option GError × List BusCall :=
  if !st.proxyConnected then
    (false, some (pk_client_error_mk .noTid "No proxy for transaction"), [])
  else
    match outcome with
    | none => (true, none, [call])
    | some e => (false, some e, [call])

/-- Embeds `pk_client_update_system_action`. -/
def pk_client_update_system_action (st : Client) (outcome : Option GError) :
    Bool × Option GError × List BusCall :=
  pk_client_proxy_call .updateSystem st outcome

/-- Embeds `pk_client_remove_packages_action`. -/
def pk_client_remove_packages_action (st : Client) (package_ids : List String)
    (allow_deps autoremove : Bool) (outcome : Option GError) :
    Bool × Option GError × List BusCall :=
  pk_client_proxy_call (.removePackages package_ids allow_deps autoremove) st outcome

/-- Embeds `pk_client_refresh_cache_action`. -/
def pk_client_refresh_cache_action (st : Client) (force : Bool) (outcome : Option GError) :
    Bool × Option GError × List BusCall :=
  pk_client_proxy_call (.refreshCache force) st outcome

/-- Embeds `pk_client_install_package_action`. -/
def pk_client_install_package_action (st : Client) (package_ids : List String)
    (outcome : Option GError) : Bool × Option GError × List BusCall :=
  pk_client_proxy_call (.installPackages package_ids) st outcome

/-- Embeds `pk_client_install_signature_action`. -/
def pk_client_install_signature_action (st : Client) (type : PkSigTypeEnum)
    (key_id package_id : String) (outcome : Option GError) :
    Bool × Option GError × List BusCall :=
  pk_client_proxy_call
    (.installSignature (pk_sig_type_enum_to_text type) key_id package_id) st outcome

/-- Embeds `pk_client_update_packages_action`. -/
def pk_client_update_packages_action (st : Client) (package_ids : List String)
    (outcome : Option GError) : Bool × Option GError × List BusCall :=
  pk_client_proxy_call (.updatePackages package_ids) st outcome

/-- Embeds `pk_client_install_files_action`. -/
def pk_client_install_files_action (st : Client) (trusted : Bool) (files : List String)
    (outcome : Option GError) : Bool × Option GError × List BusCall :=
  pk_client_proxy_call (.installFiles trusted files) st outcome

/-- Embeds `pk_client_accept_eula_action`. -/
def pk_client_accept_eula_action (st : Client) (eula_id : String)
    (outcome : Option GError) : Bool × Option GError × List BusCall :=
  pk_client_proxy_call (.acceptEula eula_id) st outcome

/-- Embeds `pk_client_repo_enable_action`. -/
def pk_client_repo_enable_action (st : Client) (repo_id : String) (enabled : Bool)
    (outcome : Option GError) : Bool × Option GError × List BusCall :=
  pk_client_proxy_call (.repoEnable repo_id enabled) st outcome

/-- Embeds `pk_client_repo_set_data_action`. -/
def pk_client_repo_set_data_action (st : Client) (repo_id parameter value : String)
    (outcome : Option GError) : Bool × Option GError × List BusCall :=
  pk_client_proxy_call (.repoSetData repo_id parameter value) st outcome

/-- The auth-retry block shared verbatim by the nine retrying actions other
than update-system (e.g. `pk_client_install_packages` lines 2106-2123):
first attempt, one elevation-gated retry on a policy denial, then the
unconditional fixup-and-propagate of a failure. -/
def pk_client_auth_retry (st : Client) (env : Env)
    (action : Client → Option GError → Bool × Option GError × List BusCall) :
    Bool × Option GError × List BusCall :=
  let (ret1, e1, b1) := action st env.call1
  let (ret, e, b) :=
    if !ret1 && pk_polkit_client_error_denied_by_policy e1 then
      if env.grant then
        let (ret2, e2, b2) := action st env.call2
        (ret2, e2, b1 ++ b2)
      else
        (ret1, e1, b1)
    else
      (ret1, e1, b1)
  if !ret then (ret, e.map pk_client_error_fixup, b) else (ret, e, b)

/-- The closing block of every action: on a successful dispatch of a not
yet finished transaction, synthesize the local waiting status (the
synchronous main-loop run processes inbound events and is outside this
state function). -/
def pk_client_finish_action (st : Client) (ret : Bool) : Client :=
  if ret && !st.is_finished then pk_client_change_status st .wait else st

/-- The message of an optional GError (`""` for NULL; the code only reads
it where the error is known to be set). -/
def gerrorMessage : Option GError → String
  | none => ""
  | some e => e.message


/-- The invalid-package-id failure of the pre-flight validation: the
formatted message embeds the offending id text, and neither a transaction
nor any bus call has happened. -/
def pk_client_invalid_id_out (st : Client) (msg : String) : ActionOut :=
  { ret := false, err := some (pk_client_error_mk .invalidPackageId msg), st := st, allocated := false, bus := [] }

/-- An action's early return after a failed transaction-id allocation or
binding. -/
def pk_client_alloc_failed_out (st : Client) (e : Option GError) : ActionOut :=
  { ret := false, err := e, st := st, allocated := true, bus := [] }

/-- Embeds `pk_client_get_updates`. -/
def pk_client_get_updates (st : Client) (env : Env) (filters : PkFilterEnum) : ActionOut :=
  match pk_client_allocate_transaction_id st env with
  | (false, e, st1) => pk_client_alloc_failed_out st1 e
  | (true, _, st1) =>
    let st2 := { st1 with role := .getUpdates, cached_filters := filters }
    let (ret, e, bus) := pk_client_proxy_call
        (.getUpdates (pk_filter_enums_to_text filters)) st2 env.call1
    { ret := ret, err := e.map pk_client_error_fixup, st := pk_client_finish_action st2 ret, allocated := true, bus := bus }

/-- Embeds `pk_client_search_name`. -/
def pk_client_search_name (st : Client) (env : Env) (filters : PkFilterEnum)
    (search : String) : ActionOut :=
  match pk_client_allocate_transaction_id st env with
  | (false, e, st1) => pk_client_alloc_failed_out st1 e
  | (true, _, st1) =>
    let st2 := { st1 with role := .searchName, cached_filters := filters, cached_search := search }
    let (ret, e, bus) := pk_client_proxy_call
        (.searchName (pk_filter_enums_to_text filters) search) st2 env.call1
    { ret := ret, err := e.map pk_client_error_fixup, st := pk_client_finish_action st2 ret, allocated := true, bus := bus }

/-- Embeds `pk_client_search_details`. -/
def pk_client_search_details (st : Client) (env : Env) (filters : PkFilterEnum)
    (search : String) : ActionOut :=
  match pk_client_allocate_transaction_id st env with
  | (false, e, st1) => pk_client_alloc_failed_out st1 e
  | (true, _, st1) =>
    let st2 := { st1 with role := .searchDetails, cached_filters := filters, cached_search := search }
    let (ret, e, bus) := pk_client_proxy_call
        (.searchDetails (pk_filter_enums_to_text filters) search) st2 env.call1
    { ret := ret, err := e.map pk_client_error_fixup, st := pk_client_finish_action st2 ret, allocated := true, bus := bus }

/-- Embeds `pk_client_search_group`. -/
def pk_client_search_group (st : Client) (env : Env) (filters : PkFilterEnum)
    (search : String) : ActionOut :=
  match pk_client_allocate_transaction_id st env with
  | (false, e, st1) => pk_client_alloc_failed_out st1 e
  | (true, _, st1) =>
    let st2 := { st1 with role := .searchGroup, cached_filters := filters, cached_search := search }
    let (ret, e, bus) := pk_client_proxy_call
        (.searchGroup (pk_filter_enums_to_text filters) search) st2 env.call1
    { ret := ret, err := e.map pk_client_error_fixup, st := pk_client_finish_action st2 ret, allocated := true, bus := bus }

/-- Embeds `pk_client_search_file`. -/
def pk_client_search_file (st : Client) (env : Env) (filters : PkFilterEnum)
    (search : String) : ActionOut :=
  match pk_client_allocate_transaction_id st env with
  | (false, e, st1) => pk_client_alloc_failed_out st1 e
  | (true, _, st1) =>
    let st2 := { st1 with role := .searchFile, cached_filters := filters, cached_search := search }
    let (ret, e, bus) := pk_client_proxy_call
        (.searchFile (pk_filter_enums_to_text filters) search) st2 env.call1
    { ret := ret, err := e.map pk_client_error_fixup, st := pk_client_finish_action st2 ret, allocated := true, bus := bus }

/-- Embeds `pk_client_get_depends`: the package id is validated before the
transaction is allocated, to avoid an unnecessary round trip. -/
def pk_client_get_depends (st : Client) (env : Env) (filters : PkFilterEnum)
    (package_id : String) (recursive : Bool) : ActionOut :=
  if !pk_package_id_check package_id then
    pk_client_invalid_id_out st ("package_id '" ++ package_id ++ "' is not valid")
  else
    match pk_client_allocate_transaction_id st env with
    | (false, e, st1) => pk_client_alloc_failed_out st1 e
    | (true, _, st1) =>
      let st2 := { st1 with role := .getDepends, cached_filters := filters, cached_package_id := package_id, cached_force := recursive }
      let (ret, e, bus) := pk_client_proxy_call
          (.getDepends (pk_filter_enums_to_text filters) package_id recursive) st2 env.call1
      { ret := ret, err := e.map pk_client_error_fixup, st := pk_client_finish_action st2 ret, allocated := true, bus := bus }

/-- Embeds `pk_client_get_requires`. -/
def pk_client_get_requires (st : Client) (env : Env) (filters : PkFilterEnum)
    (package_id : String) (recursive : Bool) : ActionOut :=
  if !pk_package_id_check package_id then
    pk_client_invalid_id_out st ("package_id '" ++ package_id ++ "' is not valid")
  else
    match pk_client_allocate_transaction_id st env with
    | (false, e, st1) => pk_client_alloc_failed_out st1 e
    | (true, _, st1) =>
      let st2 := { st1 with role := .getRequires, cached_filters := filters, cached_package_id := package_id, cached_force := recursive }
      let (ret, e, bus) := pk_client_proxy_call
          (.getRequires (pk_filter_enums_to_text filters) package_id recursive) st2 env.call1
      { ret := ret, err := e.map pk_client_error_fixup, st := pk_client_finish_action st2 ret, allocated := true, bus := bus }

/-- Embeds `pk_client_get_update_detail`. -/
def pk_client_get_update_detail (st : Client) (env : Env) (package_id : String) : ActionOut :=
  if !pk_package_id_check package_id then
    pk_client_invalid_id_out st ("package_id '" ++ package_id ++ "' is not valid")
  else
    match pk_client_allocate_transaction_id st env with
    | (false, e, st1) => pk_client_alloc_failed_out st1 e
    | (true, _, st1) =>
      let st2 := { st1 with role := .getUpdateDetail, cached_package_id := package_id }
      let (ret, e, bus) := pk_client_proxy_call (.getUpdateDetail package_id) st2 env.call1
      { ret := ret, err := e.map pk_client_error_fixup, st := pk_client_finish_action st2 ret, allocated := true, bus := bus }

/-- Embeds `pk_client_get_details`. -/
def pk_client_get_details (st : Client) (env : Env) (package_id : String) : ActionOut :=
  if !pk_package_id_check package_id then
    pk_client_invalid_id_out st ("package_id '" ++ package_id ++ "' is not valid")
  else
    match pk_client_allocate_transaction_id st env with
    | (false, e, st1) => pk_client_alloc_failed_out st1 e
    | (true, _, st1) =>
      let st2 := { st1 with role := .getDetails, cached_package_id := package_id }
      let (ret, e, bus) := pk_client_proxy_call (.getDetails package_id) st2 env.call1
      { ret := ret, err := e.map pk_client_error_fixup, st := pk_client_finish_action st2 ret, allocated := true, bus := bus }

/-- Embeds `pk_client_get_files`. -/
def pk_client_get_files (st : Client) (env : Env) (package_id : String) : ActionOut :=
  if !pk_package_id_check package_id then
    pk_client_invalid_id_out st ("package_id '" ++ package_id ++ "' is not valid")
  else
    match pk_client_allocate_transaction_id st env with
    | (false, e, st1) => pk_client_alloc_failed_out st1 e
    | (true, _, st1) =>
      let st2 := { st1 with role := .getFiles, cached_package_id := package_id }
      let (ret, e, bus) := pk_client_proxy_call (.getFiles package_id) st2 env.call1
      { ret := ret, err := e.map pk_client_error_fixup, st := pk_client_finish_action st2 ret, allocated := true, bus := bus }

/-- Embeds `pk_client_resolve`: the argument is a package name, and the
function performs no package-id validation before allocating. -/
def pk_client_resolve (st : Client) (env : Env) (filters : PkFilterEnum)
    (package : String) : ActionOut :=
  match pk_client_allocate_transaction_id st env with
  | (false, e, st1) => pk_client_alloc_failed_out st1 e
  | (true, _, st1) =>
    let st2 := { st1 with role := .resolve, cached_filters := filters, cached_package_id := package }
    let (ret, e, bus) := pk_client_proxy_call
        (.resolve (pk_filter_enums_to_text filters) package) st2 env.call1
    { ret := ret, err := e.map pk_client_error_fixup, st := pk_client_finish_action st2 ret, allocated := true, bus := bus }

/-- Embeds `pk_client_rollback`. -/
def pk_client_rollback (st : Client) (env : Env) (transaction_id : String) : ActionOut :=
  match pk_client_allocate_transaction_id st env with
  | (false, e, st1) => pk_client_alloc_failed_out st1 e
  | (true, _, st1) =>
    let st2 := { st1 with role := .rollback, cached_transaction_id := transaction_id }
    let (ret, e, bus) := pk_client_proxy_call (.rollback transaction_id) st2 env.call1
    { ret := ret, err := e.map pk_client_error_fixup, st := pk_client_finish_action st2 ret, allocated := true, bus := bus }

/-- Embeds `pk_client_get_repo_list`. -/
def pk_client_get_repo_list (st : Client) (env : Env) (filters : PkFilterEnum) : ActionOut :=
  match pk_client_allocate_transaction_id st env with
  | (false, e, st1) => pk_client_alloc_failed_out st1 e
  | (true, _, st1) =>
    let st2 := { st1 with role := .getRepoList, cached_filters := filters }
    let (ret, e, bus) := pk_client_proxy_call
        (.getRepoList (pk_filter_enums_to_text filters)) st2 env.call1
    { ret := ret, err := e.map pk_client_error_fixup, st := pk_client_finish_action st2 ret, allocated := true, bus := bus }

/-- Embeds `pk_client_update_system`: the only action that converts a
persisting policy denial into a FailedAuth client error, and the only one
that propagates other dispatch errors without the fixup normalization. -/
def pk_client_update_system (st : Client) (env : Env) : ActionOut :=
  match pk_client_allocate_transaction_id st env with
  | (false, e, st1) => pk_client_alloc_failed_out st1 e
  | (true, _, st1) =>
    let st2 := { st1 with role := .updateSystem }
    let (ret1, e1, b1) := pk_client_update_system_action st2 env.call1
    if !ret1 && pk_polkit_client_error_denied_by_policy e1 then
      if env.grant then
        let (ret2, e2, b2) := pk_client_update_system_action st2 env.call2
        if pk_polkit_client_error_denied_by_policy e2 then
          { ret := false, err := some (pk_client_error_mk .failedAuth (gerrorMessage e2)), st := st2, allocated := true, bus := b1 ++ b2 }
        else
          { ret := ret2, err := e2, st := pk_client_finish_action st2 ret2, allocated := true, bus := b1 ++ b2 }
      else
        { ret := false, err := some (pk_client_error_mk .failedAuth (gerrorMessage e1)), st := st2, allocated := true, bus := b1 }
    else
      { ret := ret1, err := e1, st := pk_client_finish_action st2 ret1, allocated := true, bus := b1 }

/-- Embeds `pk_client_install_packages`. -/
def pk_client_install_packages (st : Client) (env : Env) (package_ids : List String) : ActionOut :=
  if !pk_package_ids_check package_ids then
    pk_client_invalid_id_out st
      ("package_ids '" ++ pk_package_ids_to_text package_ids ", " ++ "' are not valid")
  else
    match pk_client_allocate_transaction_id st env with
    | (false, e, st1) => pk_client_alloc_failed_out st1 e
    | (true, _, st1) =>
      let st2 := { st1 with role := .installPackages, cached_package_ids := package_ids }
      let (ret, e, bus) := pk_client_auth_retry st2 env
          (fun s c => pk_client_install_package_action s package_ids c)
      { ret := ret, err := e, st := pk_client_finish_action st2 ret, allocated := true, bus := bus }

/-- Embeds `pk_client_remove_packages`. -/
def pk_client_remove_packages (st : Client) (env : Env) (package_ids : List String)
    (allow_deps autoremove : Bool) : ActionOut :=
  if !pk_package_ids_check package_ids then
    pk_client_invalid_id_out st
      ("package_ids '" ++ pk_package_ids_to_text package_ids ", " ++ "' are not valid")
  else
    match pk_client_allocate_transaction_id st env with
    | (false, e, st1) => pk_client_alloc_failed_out st1 e
    | (true, _, st1) =>
      let st2 := { st1 with role := .removePackages, cached_allow_deps := allow_deps, cached_autoremove := autoremove, cached_package_ids := package_ids }
      let (ret, e, bus) := pk_client_auth_retry st2 env
          (fun s c => pk_client_remove_packages_action s package_ids allow_deps autoremove c)
      { ret := ret, err := e, st := pk_client_finish_action st2 ret, allocated := true, bus := bus }

/-- Embeds `pk_client_update_packages` (the copy of the ids into the cache
is skipped in C only when requeue passes the cached array itself, which is
value-equal, so the cache assignment models both branches). -/
def pk_client_update_packages (st : Client) (env : Env) (package_ids : List String) : ActionOut :=
  if !pk_package_ids_check package_ids then
    pk_client_invalid_id_out st
      ("package_ids '" ++ pk_package_ids_to_text package_ids ", " ++ "' are not valid")
  else
    match pk_client_allocate_transaction_id st env with
    | (false, e, st1) => pk_client_alloc_failed_out st1 e
    | (true, _, st1) =>
      let st2 := { st1 with role := .updatePackages, cached_package_ids := package_ids }
      let (ret, e, bus) := pk_client_auth_retry st2 env
          (fun s c => pk_client_update_packages_action s package_ids c)
      { ret := ret, err := e, st := pk_client_finish_action st2 ret, allocated := true, bus := bus }

/-- Embeds `pk_client_install_signature` (the leading g_return_val_if_fail
guards return FALSE without an error for an unknown signature type). -/
def pk_client_install_signature (st : Client) (env : Env) (type : PkSigTypeEnum)
    (key_id package_id : String) : ActionOut :=
  if type == .unknown then
    { ret := false, err := none, st := st, allocated := false, bus := [] }
  else if !pk_package_id_check package_id then
    pk_client_invalid_id_out st ("package_id '" ++ package_id ++ "' is not valid")
  else
    match pk_client_allocate_transaction_id st env with
    | (false, e, st1) => pk_client_alloc_failed_out st1 e
    | (true, _, st1) =>
      let st2 := { st1 with role := .installSignature, cached_package_id := package_id, cached_key_id := key_id }
      let (ret, e, bus) := pk_client_auth_retry st2 env
          (fun s c => pk_client_install_signature_action s type key_id package_id c)
      { ret := ret, err := e, st := pk_client_finish_action st2 ret, allocated := true, bus := bus }

/-- Embeds `pk_client_refresh_cache`. -/
def pk_client_refresh_cache (st : Client) (env : Env) (force : Bool) : ActionOut :=
  match pk_client_allocate_transaction_id st env with
  | (false, e, st1) => pk_client_alloc_failed_out st1 e
  | (true, _, st1) =>
    let st2 := { st1 with role := .refreshCache, cached_force := force }
    let (ret, e, bus) := pk_client_auth_retry st2 env
        (fun s c => pk_client_refresh_cache_action s force c)
    { ret := ret, err := e, st := pk_client_finish_action st2 ret, allocated := true, bus := bus }

/-- Embeds `pk_client_install_files` (the realpath canonicalization of the
relative paths is filesystem input/output, outside this state model, so the
paths are taken as already absolute). -/
def pk_client_install_files (st : Client) (env : Env) (trusted : Bool)
    (files_rel : List String) : ActionOut :=
  match pk_client_allocate_transaction_id st env with
  | (false, e, st1) => pk_client_alloc_failed_out st1 e
  | (true, _, st1) =>
    let files := files_rel
    let st2 := { st1 with role := .installFiles, cached_trusted := trusted, cached_full_paths := files }
    let (ret, e, bus) := pk_client_auth_retry st2 env
        (fun s c => pk_client_install_files_action s trusted files c)
    { ret := ret, err := e, st := pk_client_finish_action st2 ret, allocated := true, bus := bus }

/-- Embeds `pk_client_accept_eula`. -/
def pk_client_accept_eula (st : Client) (env : Env) (eula_id : String) : ActionOut :=
  match pk_client_allocate_transaction_id st env with
  | (false, e, st1) => pk_client_alloc_failed_out st1 e
  | (true, _, st1) =>
    let st2 := { st1 with role := .acceptEula }
    let (ret, e, bus) := pk_client_auth_retry st2 env
        (fun s c => pk_client_accept_eula_action s eula_id c)
    { ret := ret, err := e, st := pk_client_finish_action st2 ret, allocated := true, bus := bus }

/-- Embeds `pk_client_repo_enable`. -/
def pk_client_repo_enable (st : Client) (env : Env) (repo_id : String)
    (enabled : Bool) : ActionOut :=
  match pk_client_allocate_transaction_id st env with
  | (false, e, st1) => pk_client_alloc_failed_out st1 e
  | (true, _, st1) =>
    let st2 := { st1 with role := .repoEnable }
    let (ret, e, bus) := pk_client_auth_retry st2 env
        (fun s c => pk_client_repo_enable_action s repo_id enabled c)
    { ret := ret, err := e, st := pk_client_finish_action st2 ret, allocated := true, bus := bus }

/-- Embeds `pk_client_repo_set_data`. -/
def pk_client_repo_set_data (st : Client) (env : Env) (repo_id parameter value : String) : ActionOut :=
  match pk_client_allocate_transaction_id st env with
  | (false, e, st1) => pk_client_alloc_failed_out st1 e
  | (true, _, st1) =>
    let st2 := { st1 with role := .repoSetData }
    let (ret, e, bus) := pk_client_auth_retry st2 env
        (fun s c => pk_client_repo_set_data_action s repo_id parameter value c)
    { ret := ret, err := e, st := pk_client_finish_action st2 ret, allocated := true, bus := bus }

/-- Embeds `pk_client_requeue`: refuses an unknown role or an unfinished
transaction, clears enough of the client to rebind, then calls the action
method of the cached role with the cached request values, fixing up the
resulting error. -/
def pk_client_requeue (st : Client) (env : Env) : ActionOut :=
  if st.role == .unknown then
    { ret := false, err := some (pk_client_error_mk .roleUnknown "role unknown for reque"), st := st, allocated := false, bus := [] }
  else if !st.is_finished then
    { ret := false, err := some (pk_client_error_mk .failed "not finished, so cannot requeue"), st := st, allocated := false, bus := [] }
  else
    let stc := { st with tid := none, last_status := PkStatusEnum.unknown, is_finished := false, package_list := [] }
    let out :=
      match stc.role with
      | .getDepends =>
        pk_client_get_depends stc env stc.cached_filters stc.cached_package_id stc.cached_force
      | .getUpdateDetail => pk_client_get_update_detail stc env stc.cached_package_id
      | .resolve => pk_client_resolve stc env stc.cached_filters stc.cached_package_id
      | .rollback => pk_client_rollback stc env stc.cached_transaction_id
      | .getDetails => pk_client_get_details stc env stc.cached_package_id
      | .getFiles => pk_client_get_files stc env stc.cached_package_id
      | .getRequires =>
        pk_client_get_requires stc env stc.cached_filters stc.cached_package_id stc.cached_force
      | .getUpdates => pk_client_get_updates stc env stc.cached_filters
      | .searchDetails => pk_client_search_details stc env stc.cached_filters stc.cached_search
      | .searchFile => pk_client_search_file stc env stc.cached_filters stc.cached_search
      | .searchGroup => pk_client_search_group stc env stc.cached_filters stc.cached_search
      | .searchName => pk_client_search_name stc env stc.cached_filters stc.cached_search
      | .installPackages => pk_client_install_packages stc env stc.cached_package_ids
      | .installFiles => pk_client_install_files stc env stc.cached_trusted stc.cached_full_paths
      | .installSignature =>
        pk_client_install_signature stc env .gpg stc.cached_key_id stc.cached_package_id
      | .refreshCache => pk_client_refresh_cache stc env stc.cached_force
      | .removePackages =>
        pk_client_remove_packages stc env stc.cached_package_ids stc.cached_allow_deps stc.cached_autoremove
      | .updatePackages => pk_client_update_packages stc env stc.cached_package_ids
      | .updateSystem => pk_client_update_system stc env
      | .getRepoList => pk_client_get_repo_list stc env stc.cached_filters
      | _ =>
        { ret := false, err := some (pk_client_error_mk .roleUnknown "role unknown for reque"), st := stc, allocated := false, bus := [] }
    { out with err := out.err.map pk_client_error_fixup }

/-- A public action method together with its arguments, used to quantify
theorems over the action surface of the client. -/
inductive ActionReq where
  | getDepends (filters : PkFilterEnum) (package_id : String) (recursive : Bool)
  | getUpdateDetail (package_id : String)
  | resolve (filters : PkFilterEnum) (package : String)
  | rollback (transaction_id : String)
  | getDetails (package_id : String)
  | getFiles (package_id : String)
  | getRequires (filters : PkFilterEnum) (package_id : String) (recursive : Bool)
  | getUpdates (filters : PkFilterEnum)
  | searchDetails (filters : PkFilterEnum) (search : String)
  | searchFile (filters : PkFilterEnum) (search : String)
  | searchGroup (filters : PkFilterEnum) (search : String)
  | searchName (filters : PkFilterEnum) (search : String)
  | installPackages (package_ids : List String)
  | installFiles (trusted : Bool) (files : List String)
  | installSignature (type : PkSigTypeEnum) (key_id package_id : String)
  | refreshCache (force : Bool)
  | removePackages (package_ids : List String) (allow_deps autoremove : Bool)
  | updatePackages (package_ids : List String)
  | updateSystem
  | getRepoList (filters : PkFilterEnum)
  | acceptEula (eula_id : String)
  | repoEnable (repo_id : String) (enabled : Bool)
  | repoSetData (repo_id parameter value : String)
  deriving DecidableEq, Repr

/-- Runs the action method named by the request. -/
def runAction (req : ActionReq) (st : Client) (env : Env) : ActionOut :=
  match req with
  | .getDepends f p r => pk_client_get_depends st env f p r
  | .getUpdateDetail p => pk_client_get_update_detail st env p
  | .resolve f p => pk_client_resolve st env f p
  | .rollback t => pk_client_rollback st env t
  | .getDetails p => pk_client_get_details st env p
  | .getFiles p => pk_client_get_files st env p
  | .getRequires f p r => pk_client_get_requires st env f p r
  | .getUpdates f => pk_client_get_updates st env f
  | .searchDetails f s => pk_client_search_details st env f s
  | .searchFile f s => pk_client_search_file st env f s
  | .searchGroup f s => pk_client_search_group st env f s
  | .searchName f s => pk_client_search_name st env f s
  | .installPackages ids => pk_client_install_packages st env ids
  | .installFiles t fs => pk_client_install_files st env t fs
  | .installSignature ty k p => pk_client_install_signature st env ty k p
  | .refreshCache f => pk_client_refresh_cache st env f
  | .removePackages ids a au => pk_client_remove_packages st env ids a au
  | .updatePackages ids => pk_client_update_packages st env ids
  | .updateSystem => pk_client_update_system st env
  | .getRepoList f => pk_client_get_repo_list st env f
  | .acceptEula e => pk_client_accept_eula st env e
  | .repoEnable r e => pk_client_repo_enable st env r e
  | .repoSetData r p v => pk_client_repo_set_data st env r p v

/-- Whether the request passes the guards and pre-flight validation that
its action method runs before allocating a transaction. -/
def actionValidates : ActionReq → Bool
  | .getDepends _ p _ => pk_package_id_check p
  | .getUpdateDetail p => pk_package_id_check p
  | .getDetails p => pk_package_id_check p
  | .getFiles p => pk_package_id_check p
  | .getRequires _ p _ => pk_package_id_check p
  | .installSignature ty _ p => ty != .unknown && pk_package_id_check p
  | .installPackages ids => pk_package_ids_check ids
  | .removePackages ids _ _ => pk_package_ids_check ids
  | .updatePackages ids => pk_package_ids_check ids
  | _ => true

/-- The actions whose dispatch is wrapped by the policy-denial/elevation
retry (the AuthRetryPolicy of the spec). -/
def usesAuthRetry : ActionReq → Bool
  | .updateSystem => true
  | .installPackages _ => true
  | .removePackages _ _ _ => true
  | .updatePackages _ => true
  | .installSignature _ _ _ => true
  | .refreshCache _ => true
  | .acceptEula _ => true
  | .repoEnable _ _ => true
  | .repoSetData _ _ _ => true
  | .installFiles _ _ => true
  | _ => false

/-- The actions that take package id(s) and validate them before
allocation. -/
def validatesPackageIds : ActionReq → Bool
  | .getDepends _ _ _ => true
  | .getUpdateDetail _ => true
  | .getDetails _ => true
  | .getFiles _ => true
  | .getRequires _ _ _ => true
  | .installSignature _ _ _ => true
  | .installPackages _ => true
  | .removePackages _ _ _ => true
  | .updatePackages _ => true
  | _ => false

/-- The diagnostic message each validating action formats for invalid
package id(s); it embeds the original id text verbatim. -/
def invalidIdMessage : ActionReq → String
  | .getDepends _ p _ => "package_id '" ++ p ++ "' is not valid"
  | .getUpdateDetail p => "package_id '" ++ p ++ "' is not valid"
  | .getDetails p => "package_id '" ++ p ++ "' is not valid"
  | .getFiles p => "package_id '" ++ p ++ "' is not valid"
  | .getRequires _ p _ => "package_id '" ++ p ++ "' is not valid"
  | .installSignature _ _ p => "package_id '" ++ p ++ "' is not valid"
  | .installPackages ids => "package_ids '" ++ pk_package_ids_to_text ids ", " ++ "' are not valid"
  | .removePackages ids _ _ => "package_ids '" ++ pk_package_ids_to_text ids ", " ++ "' are not valid"
  | .updatePackages ids => "package_ids '" ++ pk_package_ids_to_text ids ", " ++ "' are not valid"
  | _ => ""

/-- The request `pk_client_requeue` would re-issue for the client's cached
role and request values; `none` for the roles its dispatch table lacks. -/
def roleRequest (priv : Client) : Option ActionReq :=
  match priv.role with
  | .getDepends => some (.getDepends priv.cached_filters priv.cached_package_id priv.cached_force)
  | .getUpdateDetail => some (.getUpdateDetail priv.cached_package_id)
  | .resolve => some (.resolve priv.cached_filters priv.cached_package_id)
  | .rollback => some (.rollback priv.cached_transaction_id)
  | .getDetails => some (.getDetails priv.cached_package_id)
  | .getFiles => some (.getFiles priv.cached_package_id)
  | .getRequires => some (.getRequires priv.cached_filters priv.cached_package_id priv.cached_force)
  | .getUpdates => some (.getUpdates priv.cached_filters)
  | .searchDetails => some (.searchDetails priv.cached_filters priv.cached_search)
  | .searchFile => some (.searchFile priv.cached_filters priv.cached_search)
  | .searchGroup => some (.searchGroup priv.cached_filters priv.cached_search)
  | .searchName => some (.searchName priv.cached_filters priv.cached_search)
  | .installPackages => some (.installPackages priv.cached_package_ids)
  | .installFiles => some (.installFiles priv.cached_trusted priv.cached_full_paths)
  | .installSignature => some (.installSignature .gpg priv.cached_key_id priv.cached_package_id)
  | .refreshCache => some (.refreshCache priv.cached_force)
  | .removePackages => some (.removePackages priv.cached_package_ids priv.cached_allow_deps priv.cached_autoremove)
  | .updatePackages => some (.updatePackages priv.cached_package_ids)
  | .updateSystem => some .updateSystem
  | .getRepoList => some (.getRepoList priv.cached_filters)
  | _ => none

/-- The partial clearing `pk_client_requeue` performs before it
re-dispatches (tid, status, finished flag and package list only). -/
def pk_client_requeue_clear (st : Client) : Client :=
  { st with tid := none, last_status := PkStatusEnum.unknown, is_finished := false, package_list := [] }

/-- The raising operation performed by `pk_client_require_restart_cb` on
the tracked level: keep the more severe of the two. -/
def pkRestartRaise (a b : PkRestartEnum) : PkRestartEnum :=
  if restartSeverity a < restartSeverity b then b else a

/-- Folding the restart callback over a sequence of delivered events. -/
def restartFold (st : Client) (evs : List (PkRestartEnum × String)) : Client :=
  evs.foldl (fun s rd => pk_client_require_restart_cb s rd.1 rd.2) st

/-- A client that has already issued a search-name action with a cached
request and seen it finish. -/
def stWithCache : Client :=
  { pk_client_new with
    role := PkRoleEnum.searchName
    is_finished := true
    cached_search := "power"
    cached_package_id := "gnome-power-manager;0.0.1;i386;fedora"
    cached_filters := 5 }

/-- A generic remote-exception error that is not a policy denial. -/
def remoteNoReplyErr : GError :=
  { domainIsDBus := true, code := .dbusRemoteException
  , dbusName := "org.freedesktop.DBus.Error.NoReply", message := "timeout" }

/-- A policy-denial error as the daemon reports it over the bus. -/
def deniedErr : GError :=
  { domainIsDBus := true, code := .dbusRemoteException
  , dbusName := refusedByPolicyName, message := "org.freedesktop.packagekit.update denied" }

/-- A second, distinct policy-denial error for second attempts. -/
def deniedErr2 : GError :=
  { domainIsDBus := true, code := .dbusRemoteException
  , dbusName := refusedByPolicyName, message := "second denial" }

/-- A healthy environment with the given dispatch outcomes and broker
verdict. -/
def envOf (c1 c2 : Option GError) (grant : Bool) : Env :=
  { allocTid := some "/3_aa", allocErr := pk_client_error_mk .failed "cannot allocate"
  , proxyOk := true, call1 := c1, call2 := c2, grant := grant }

/-- A client whose search-name action is still running (not finished). -/
def stRoleNotFinished : Client := { pk_client_new with role := PkRoleEnum.searchName }

/-- A finished client whose cached role is accept-eula. -/
def stEulaFinished : Client :=
  { pk_client_new with role := PkRoleEnum.acceptEula, is_finished := true }

/-- The g_return_val_if_fail guards an action runs before its package-id
validation (only install_signature has one that inputs can trip). -/
def reqGuardOk : ActionReq → Bool
  | .installSignature ty _ _ => ty != .unknown
  | _ => true

/-- The outcome of the package-id validation of the request's action
(true for actions that validate nothing). -/
def reqIdCheck : ActionReq → Bool
  | .getDepends _ p _ => pk_package_id_check p
  | .getUpdateDetail p => pk_package_id_check p
  | .getDetails p => pk_package_id_check p
  | .getFiles p => pk_package_id_check p
  | .getRequires _ p _ => pk_package_id_check p
  | .installSignature _ _ p => pk_package_id_check p
  | .installPackages ids => pk_package_ids_check ids
  | .removePackages ids _ _ => pk_package_ids_check ids
  | .updatePackages ids => pk_package_ids_check ids
  | _ => true

/-- A client already bound to a transaction. -/
def stBound : Client :=
  { pk_client_new with tid := some "/3_aa", proxyConnected := true }

theorem pkRestartRaise_severity :
    ∀ a b, restartSeverity (pkRestartRaise a b)
      = Nat.max (restartSeverity a) (restartSeverity b) := by
  intro a b
  cases a <;> cases b <;> decide

theorem pkRestartRaise_right_comm :
    ∀ z a b, pkRestartRaise (pkRestartRaise z a) b
      = pkRestartRaise (pkRestartRaise z b) a := by
  intro z a b
  cases z <;> cases a <;> cases b <;> decide

theorem pkRestartRaise_le :
    ∀ a b, restartSeverity a ≤ restartSeverity (pkRestartRaise a b) := by
  intro a b
  cases a <;> cases b <;> decide

theorem require_restart_cb_restart (st : Client) (r : PkRestartEnum) (d : String) :
    (pk_client_require_restart_cb st r d).require_restart
      = pkRestartRaise st.require_restart r := by
  simp only [pk_client_require_restart_cb, pkRestartRaise]
  split <;> rfl

theorem restartFold_restart (evs : List (PkRestartEnum × String)) :
    ∀ st : Client, (restartFold st evs).require_restart
      = evs.foldl (fun a rd => pkRestartRaise a rd.1) st.require_restart := by
  induction evs with
  | nil => intro st; rfl
  | cons e l ih =>
    intro st
    simp only [restartFold, List.foldl_cons] at *
    rw [ih, require_restart_cb_restart]

theorem foldl_raise_severity (evs : List (PkRestartEnum × String)) :
    ∀ a : PkRestartEnum,
      restartSeverity (evs.foldl (fun x rd => pkRestartRaise x rd.1) a)
        = evs.foldl (fun n rd => Nat.max n (restartSeverity rd.1)) (restartSeverity a) := by
  induction evs with
  | nil => intro a; rfl
  | cons e l ih =>
    intro a
    simp only [List.foldl_cons]
    rw [ih, pkRestartRaise_severity]

/-- Claim C6: over every sequence of RequireRestart events, the tracked
restart level ends at the maximum severity among the delivered events and
the initial level, independent of arrival order, and no single event ever
lowers it. -/
theorem C6_restart_tracker_is_max (st : Client) (evs evs2 : List (PkRestartEnum × String))
    (hperm : evs.Perm evs2) :
    restartSeverity (restartFold st evs).require_restart
      = evs.foldl (fun n rd => Nat.max n (restartSeverity rd.1)) (restartSeverity st.require_restart)
    ∧ (restartFold st evs).require_restart = (restartFold st evs2).require_restart
    ∧ ∀ r d, restartSeverity st.require_restart
        ≤ restartSeverity ((pk_client_require_restart_cb st r d).require_restart) := by
  refine ⟨?_, ?_, ?_⟩
  · rw [restartFold_restart, foldl_raise_severity]
  · rw [restartFold_restart, restartFold_restart]
    exact hperm.foldl_eq' (fun x _ y _ z => pkRestartRaise_right_comm z x.1 y.1) _
  · intro r d
    rw [require_restart_cb_restart]
    exact pkRestartRaise_le _ _

theorem C6_restart_tracker_is_max_witness :
    (restartFold pk_client_new [(PkRestartEnum.system, ""), (PkRestartEnum.session, "")]).require_restart
      = (restartFold pk_client_new [(PkRestartEnum.session, ""), (PkRestartEnum.system, "")]).require_restart :=
  (C6_restart_tracker_is_max pk_client_new
    [(PkRestartEnum.system, ""), (PkRestartEnum.session, "")]
    [(PkRestartEnum.session, ""), (PkRestartEnum.system, "")]
    (List.Perm.swap _ _ _)).2.1

/-- Claim C5: cancel() with no bound transaction succeeds with no bus
interaction; bound, it succeeds when the remote Cancel succeeds or the
remote error says the transaction is not running or does not exist, and
fails with the normalized error on every other remote error. -/
theorem C5_cancel_idempotent (st : Client) (remote : Option GError) :
    (st.proxyConnected = false → pk_client_cancel st remote = (true, none, [])) ∧
    (st.proxyConnected = true →
      (remote = none → pk_client_cancel st remote = (true, none, [BusCall.cancel])) ∧
      (∀ e, remote = some e →
        ((e.message = "cancelling a non-running transaction"
            ∨ g_str_has_suffix e.message " doesn't exist\n" = true) →
          pk_client_cancel st remote = (true, none, [BusCall.cancel])) ∧
        (e.message ≠ "cancelling a non-running transaction" →
          g_str_has_suffix e.message " doesn't exist\n" = false →
          pk_client_cancel st remote
            = (false, some (pk_client_error_fixup e), [BusCall.cancel])))) := by
  refine ⟨?_, ?_⟩
  · intro h
    simp [pk_client_cancel, h]
  · intro h
    refine ⟨?_, ?_⟩
    · intro h2
      subst h2
      simp [pk_client_cancel, h]
    · intro e he
      subst he
      refine ⟨?_, ?_⟩
      · intro hor
        have hcond : (e.message == "cancelling a non-running transaction"
            || g_str_has_suffix e.message " doesn't exist\n") = true := by
          rcases hor with h1 | h1
          · simp [h1]
          · simp [h1]
        simp [pk_client_cancel, h, hcond]
      · intro h1 h2
        have hcond : (e.message == "cancelling a non-running transaction"
            || g_str_has_suffix e.message " doesn't exist\n") = false := by
          simp [h1, h2]
        simp [pk_client_cancel, h, hcond]

theorem C5_cancel_idempotent_witness :
    pk_client_cancel pk_client_new none = (true, none, []) :=
  (C5_cancel_idempotent pk_client_new none).1 rfl

/-- Claim C10: with use_buffer false the package-list accessor returns
NULL (no list), even in synchronous mode where Package events are still
appended to the internal list, so those rows are unreachable through the
accessor. -/
theorem C10_accessor_null_without_buffer (st : Client) (i p s : String)
    (h : st.use_buffer = false) :
    pk_client_get_package_list st = none ∧
    (st.synchronous = true →
      (pk_client_package_cb st i p s).package_list = st.package_list ++ [⟨i, p, s⟩] ∧
      pk_client_get_package_list (pk_client_package_cb st i p s) = none) := by
  refine ⟨?_, ?_⟩
  · simp [pk_client_get_package_list, h]
  · intro hs
    refine ⟨?_, ?_⟩
    · simp [pk_client_package_cb, h, hs]
    · simp [pk_client_package_cb, pk_client_get_package_list, h, hs]

theorem C10_accessor_null_without_buffer_witness :
    pk_client_get_package_list { pk_client_new with synchronous := true } = none ∧
    (pk_client_package_cb { pk_client_new with synchronous := true }
        "available" "a;1;i386;f" "a summary").package_list
      = ({ pk_client_new with synchronous := true } : Client).package_list
          ++ [⟨"available", "a;1;i386;f", "a summary"⟩] :=
  ⟨(C10_accessor_null_without_buffer { pk_client_new with synchronous := true }
      "available" "a;1;i386;f" "a summary" rfl).1,
   ((C10_accessor_null_without_buffer { pk_client_new with synchronous := true }
      "available" "a;1;i386;f" "a summary" rfl).2 rfl).1⟩

theorem deliver_preserves (st : Client) (ev : TransEvent)
    (hb : st.use_buffer = false) (hs : st.synchronous = false) (h0 : st.package_list = []) :
    (pk_client_deliver st ev).use_buffer = false ∧
    (pk_client_deliver st ev).synchronous = false ∧
    (pk_client_deliver st ev).package_list = [] := by
  cases ev with
  | package i p s => simp [pk_client_deliver, pk_client_package_cb, hb, hs, h0]
  | statusChanged s =>
    simp [pk_client_deliver, pk_client_status_changed_cb, pk_client_change_status, hb, hs, h0]
  | requireRestart r d =>
    simp only [pk_client_deliver, pk_client_require_restart_cb]
    split <;> simp [hb, hs, h0]
  | finished e r => simp [pk_client_deliver, pk_client_finished_cb, hb, hs, h0]
  | inert => exact ⟨hb, hs, h0⟩

/-- Claim C8 (amended): with neither buffering nor synchronous mode, no
Package event is ever appended, so after any event sequence (any completed
transaction) the buffer is empty; the accessor then returns NULL (no
list), not an empty list. -/
theorem C8_buffer_stays_empty (st : Client) (evs : List TransEvent)
    (hb : st.use_buffer = false) (hs : st.synchronous = false) (h0 : st.package_list = []) :
    (evs.foldl pk_client_deliver st).package_list = [] ∧
    pk_client_get_package_list (evs.foldl pk_client_deliver st) = none := by
  have main : ∀ (evs : List TransEvent) (st : Client), st.use_buffer = false →
      st.synchronous = false → st.package_list = [] →
      (evs.foldl pk_client_deliver st).use_buffer = false ∧
      (evs.foldl pk_client_deliver st).synchronous = false ∧
      (evs.foldl pk_client_deliver st).package_list = [] := by
    intro evs
    induction evs with
    | nil => intro st hb hs h0; exact ⟨hb, hs, h0⟩
    | cons e l ih =>
      intro st hb hs h0
      have h := deliver_preserves st e hb hs h0
      simpa using ih (pk_client_deliver st e) h.1 h.2.1 h.2.2
  obtain ⟨hbuf, _, hlist⟩ := main evs st hb hs h0
  exact ⟨hlist, by simp [pk_client_get_package_list, hbuf]⟩

theorem C8_buffer_stays_empty_witness :
    (([TransEvent.package "available" "a;1;i386;f" "a summary"]).foldl
        pk_client_deliver pk_client_new).package_list = [] :=
  (C8_buffer_stays_empty pk_client_new
    [TransEvent.package "available" "a;1;i386;f" "a summary"] rfl rfl rfl).1

theorem C8_accessor_not_empty_list :
    ([TransEvent.package "available" "a;1;i386;f" "a summary",
      TransEvent.finished "success" 5].foldl pk_client_deliver pk_client_new).package_list = []
    ∧ pk_client_get_package_list
        ([TransEvent.package "available" "a;1;i386;f" "a summary",
          TransEvent.finished "success" 5].foldl pk_client_deliver pk_client_new) = none
    ∧ pk_client_get_package_list
        ([TransEvent.package "available" "a;1;i386;f" "a summary",
          TransEvent.finished "success" 5].foldl pk_client_deliver pk_client_new)
        ≠ some ([] : List PkPackageItem) := by decide

theorem pk_client_reset_success (st : Client) (cr : Option GError)
    (h : (pk_client_reset st cr).1 = true) :
    pk_client_reset st cr = (true, none, pk_client_reset_clear st) := by
  by_cases hc : (st.tid.isSome && !st.is_finished) = true
  · rcases hcan : pk_client_cancel st cr with ⟨ret, e, b⟩
    cases ret
    · have hv : pk_client_reset st cr = (false, e, st) := by
        simp only [pk_client_reset, hc, if_true, hcan]
      rw [hv] at h
      cases h
    · simp only [pk_client_reset, hc, if_true, hcan]
  · have hc2 : (st.tid.isSome && !st.is_finished) = false := by
      simpa using hc
    simp only [pk_client_reset, hc2, Bool.false_eq_true, if_false]

/-- Claim C3 (amended): a successful reset() clears, besides the tid, the
signal bindings, the package buffer, the status, the role and the finished
flag, also every cached string/array of the request and the cached
filters; only the cached booleans, the cached provides kind, the mode
flags and the restart tracker survive. -/
theorem C3_reset_effect (st : Client) (cr : Option GError)
    (h : (pk_client_reset st cr).1 = true) :
    pk_client_reset st cr = (true, none, pk_client_reset_clear st)
    ∧ (pk_client_reset_clear st).tid = none
    ∧ (pk_client_reset_clear st).proxyConnected = false
    ∧ (pk_client_reset_clear st).package_list = []
    ∧ (pk_client_reset_clear st).last_status = PkStatusEnum.unknown
    ∧ (pk_client_reset_clear st).role = PkRoleEnum.unknown
    ∧ (pk_client_reset_clear st).is_finished = false
    ∧ (pk_client_reset_clear st).cached_package_id = ""
    ∧ (pk_client_reset_clear st).cached_package_ids = []
    ∧ (pk_client_reset_clear st).cached_search = ""
    ∧ (pk_client_reset_clear st).cached_full_path = ""
    ∧ (pk_client_reset_clear st).cached_full_paths = []
    ∧ (pk_client_reset_clear st).cached_key_id = ""
    ∧ (pk_client_reset_clear st).cached_transaction_id = ""
    ∧ (pk_client_reset_clear st).cached_filters = PK_FILTER_ENUM_UNKNOWN
    ∧ (pk_client_reset_clear st).cached_force = st.cached_force
    ∧ (pk_client_reset_clear st).cached_allow_deps = st.cached_allow_deps
    ∧ (pk_client_reset_clear st).cached_autoremove = st.cached_autoremove
    ∧ (pk_client_reset_clear st).cached_trusted = st.cached_trusted
    ∧ (pk_client_reset_clear st).cached_provides = st.cached_provides
    ∧ (pk_client_reset_clear st).use_buffer = st.use_buffer
    ∧ (pk_client_reset_clear st).synchronous = st.synchronous
    ∧ (pk_client_reset_clear st).require_restart = st.require_restart :=
  ⟨pk_client_reset_success st cr h, rfl, rfl, rfl, rfl, rfl, rfl, rfl, rfl, rfl,
   rfl, rfl, rfl, rfl, rfl, rfl, rfl, rfl, rfl, rfl, rfl, rfl, rfl⟩

theorem C3_reset_effect_witness :
    pk_client_reset pk_client_new none = (true, none, pk_client_reset_clear pk_client_new) :=
  (C3_reset_effect pk_client_new none (by decide)).1

theorem C3_reset_keeps_cache_counterexample :
    (pk_client_reset stWithCache none).1 = true
    ∧ (pk_client_reset stWithCache none).2.2.cached_search ≠ "power"
    ∧ (pk_client_reset stWithCache none).2.2.cached_package_id
        ≠ "gnome-power-manager;0.0.1;i386;fedora"
    ∧ (pk_client_reset stWithCache none).2.2.cached_filters ≠ 5 := by decide

/-- Claim C9: update_system returns a generic remote-exception error to
its caller without rewriting its code to Failed, unlike every sibling
operation (here get_updates) which applies the fixup; the message is
preserved by the fixup wherever it does run. -/
theorem C9_update_system_not_normalized :
    (pk_client_update_system pk_client_new (envOf (some remoteNoReplyErr) none false)).err
        = some remoteNoReplyErr
    ∧ remoteNoReplyErr.code = GErrorCode.dbusRemoteException
    ∧ remoteNoReplyErr.domainIsDBus = true
    ∧ pk_client_error_fixup remoteNoReplyErr
        = { remoteNoReplyErr with code := .client .failed }
    ∧ (pk_client_get_updates pk_client_new (envOf (some remoteNoReplyErr) none false) 0).err
        = some (pk_client_error_fixup remoteNoReplyErr)
    ∧ (pk_client_error_fixup remoteNoReplyErr).message = remoteNoReplyErr.message := by
  decide

/-- Claim C2 (amended): requeue() fails with RoleUnknown (and dispatches
nothing) when no role was ever set; fails with the generic Failed error
when the transaction has not finished; re-dispatches the action method of
the cached role with the cached request values for the twenty roles of its
dispatch table; and fails with RoleUnknown, dispatching nothing, for any
other known role. -/
theorem C2_requeue_dispatch (st : Client) (env : Env) :
    (st.role = PkRoleEnum.unknown →
      pk_client_requeue st env =
        { ret := false, err := some (pk_client_error_mk .roleUnknown "role unknown for reque"), st := st, allocated := false, bus := [] }) ∧
    (st.role ≠ PkRoleEnum.unknown → st.is_finished = false →
      pk_client_requeue st env =
        { ret := false, err := some (pk_client_error_mk .failed "not finished, so cannot requeue"), st := st, allocated := false, bus := [] }) ∧
    (st.is_finished = true → ∀ req, roleRequest st = some req →
      pk_client_requeue st env =
        { runAction req (pk_client_requeue_clear st) env with
          err := (runAction req (pk_client_requeue_clear st) env).err.map pk_client_error_fixup }) ∧
    (st.is_finished = true → st.role ≠ PkRoleEnum.unknown → roleRequest st = none →
      pk_client_requeue st env =
        { ret := false, err := some (pk_client_error_mk .roleUnknown "role unknown for reque"), st := pk_client_requeue_clear st, allocated := false, bus := [] }) := by
  obtain ⟨tid, prox, fin, ub, sy, ls, rr, role, pl, cf, cad, cau, ct, cpi, cpis, cti, cki, cfp, cfps, cs, cp, cfl⟩ := st
  refine ⟨?_, ?_, ?_, ?_⟩
  · intro h
    cases h
    rfl
  · intro h hnf
    cases hnf
    cases role
    case unknown => exact absurd rfl h
    all_goals rfl
  · intro hf req hreq
    cases hf
    cases role <;> simp only [roleRequest] at hreq
    all_goals cases hreq
    all_goals rfl
  · intro hf hne hnone
    cases hf
    cases role <;> simp only [roleRequest] at hnone
    case unknown => exact absurd rfl hne
    all_goals first
      | exact Option.noConfusion hnone
      | rfl

theorem C2_requeue_dispatch_witness :
    pk_client_requeue stWithCache (envOf none none false) =
      { runAction (ActionReq.searchName 5 "power") (pk_client_requeue_clear stWithCache) (envOf none none false) with
        err := (runAction (ActionReq.searchName 5 "power") (pk_client_requeue_clear stWithCache) (envOf none none false)).err.map pk_client_error_fixup } :=
  (C2_requeue_dispatch stWithCache (envOf none none false)).2.2.1 rfl
    (ActionReq.searchName 5 "power") rfl

theorem C2_requeue_counterexample :
    (pk_client_requeue stRoleNotFinished (envOf none none false)).err
      = some (pk_client_error_mk .failed "not finished, so cannot requeue")
    ∧ PkClientErrorCode.failed ≠ PkClientErrorCode.roleUnknown
    ∧ (pk_client_requeue stEulaFinished (envOf none none false)).bus = []
    ∧ (pk_client_requeue stEulaFinished (envOf none none false)).err
      = some (pk_client_error_mk .roleUnknown "role unknown for reque") := by decide

/-- Claim C4 (amended): every package-id-taking action except resolve
(which takes a package name and validates nothing) checks each id before
any transaction is allocated; on an invalid id it fails with
InvalidPackageId carrying the original id text in the message, with no
allocation and no bus call, and the client state unchanged. -/
theorem C4_prevalidation (req : ActionReq) (st : Client) (env : Env)
    (hval : validatesPackageIds req = true)
    (hguard : reqGuardOk req = true)
    (hbad : reqIdCheck req = false) :
    runAction req st env =
      { ret := false
      , err := some (pk_client_error_mk .invalidPackageId (invalidIdMessage req))
      , st := st, allocated := false, bus := [] } := by
  cases req <;> first
    | exact Bool.noConfusion hval
    | simp_all [runAction, validatesPackageIds, reqGuardOk, reqIdCheck,
        pk_client_get_depends, pk_client_get_update_detail, pk_client_get_details,
        pk_client_get_files, pk_client_get_requires, pk_client_install_signature,
        pk_client_install_packages, pk_client_remove_packages, pk_client_update_packages,
        invalidIdMessage, pk_client_invalid_id_out]

theorem C4_prevalidation_witness :
    runAction (ActionReq.getDepends 0 "foo;1.0;x86_64" false) pk_client_new (envOf none none false)
      = { ret := false
        , err := some (pk_client_error_mk .invalidPackageId
            (invalidIdMessage (ActionReq.getDepends 0 "foo;1.0;x86_64" false)))
        , st := pk_client_new, allocated := false, bus := [] } :=
  C4_prevalidation (ActionReq.getDepends 0 "foo;1.0;x86_64" false) pk_client_new
    (envOf none none false) rfl rfl (by decide)

theorem C4_resolve_counterexample :
    pk_package_id_check "foo;1.0;x86_64" = false
    ∧ (pk_client_resolve pk_client_new (envOf none none false) 1 "foo;1.0;x86_64").allocated = true
    ∧ (pk_client_resolve pk_client_new (envOf none none false) 1 "foo;1.0;x86_64").bus
        = [BusCall.resolve (pk_filter_enums_to_text 1) "foo;1.0;x86_64"]
    ∧ (pk_client_resolve pk_client_new (envOf none none false) 1 "foo;1.0;x86_64").ret = true
    ∧ (pk_client_resolve pk_client_new (envOf none none false) 1 "foo;1.0;x86_64").err = none := by
  decide

/-- Claim C7 (amended): binding a tid to an already bound client fails with
AlreadyBound and changes nothing; every action method whose pre-flight
validation passes, run on an already bound client whose daemon tid
allocation succeeds, fails the same way with the binding untouched. -/
theorem C7_already_bound (st : Client) (env : Env) (tid0 t : String)
    (hbound : st.tid = some tid0) :
    (pk_client_set_tid st env t =
      (false, some (pk_client_error_mk .alreadyTid "cannot set the tid on an already set client"), st))
    ∧ (∀ req t2, actionValidates req = true → env.allocTid = some t2 →
        runAction req st env =
          { ret := false
          , err := some (pk_client_error_mk .alreadyTid "cannot set the tid on an already set client")
          , st := st, allocated := true, bus := [] }) := by
  refine ⟨?_, ?_⟩
  · simp [pk_client_set_tid, hbound]
  · intro req t2 hv ha
    cases req <;>
      simp_all [runAction, actionValidates, pk_client_allocate_transaction_id,
        pk_client_set_tid, hbound, pk_client_alloc_failed_out, pk_client_invalid_id_out,
        pk_client_get_depends, pk_client_get_update_detail, pk_client_resolve,
        pk_client_rollback, pk_client_get_details, pk_client_get_files,
        pk_client_get_requires, pk_client_get_updates, pk_client_search_details,
        pk_client_search_file, pk_client_search_group, pk_client_search_name,
        pk_client_install_packages, pk_client_install_files, pk_client_install_signature,
        pk_client_refresh_cache, pk_client_remove_packages, pk_client_update_packages,
        pk_client_update_system, pk_client_get_repo_list, pk_client_accept_eula,
        pk_client_repo_enable, pk_client_repo_set_data]

theorem C7_already_bound_witness :
    runAction (ActionReq.refreshCache true) stBound (envOf none none false)
      = { ret := false
        , err := some (pk_client_error_mk .alreadyTid "cannot set the tid on an already set client")
        , st := stBound, allocated := true, bus := [] } :=
  (C7_already_bound stBound (envOf none none false) "/3_aa" "/9_zz" rfl).2
    (ActionReq.refreshCache true) "/3_aa" rfl rfl

theorem C7_invalid_id_beats_already_bound :
    (pk_client_get_depends stBound (envOf none none false) 0 "foo;1.0;x86_64" false).err
      = some (pk_client_error_mk .invalidPackageId "package_id 'foo;1.0;x86_64' is not valid")
    ∧ pk_client_error_mk .invalidPackageId "package_id 'foo;1.0;x86_64' is not valid"
        ≠ pk_client_error_mk .alreadyTid "cannot set the tid on an already set client" := by
  decide

theorem pk_polkit_denied_none :
    pk_polkit_client_error_denied_by_policy none = false := rfl

/-- Claim C1 (amended): when the first dispatch of a retry-wrapped action
is policy-denied, a granted elevation leads to exactly one more dispatch
with overall success iff that second attempt succeeds; a refused elevation
or a second denial ends the action, update_system surfacing FailedAuth
with the last denial's message while the other retrying actions surface
the denial itself normalized to the Failed code (message preserved);
an action without the retry wrapper (e.g. rollback) never consults the
broker and fails after its single dispatch with the normalized denial. -/
theorem C1_policy_retry (req : ActionReq) (st : Client) (env : Env) (t : String)
    (hval : actionValidates req = true)
    (hunbound : st.tid = none)
    (halloc : env.allocTid = some t)
    (hproxy : env.proxyOk = true)
    (hdenied : pk_polkit_client_error_denied_by_policy env.call1 = true) :
    (usesAuthRetry req = true →
      (runAction req st env).bus.length = (if env.grant then 2 else 1) ∧
      ((runAction req st env).ret = true ↔ (env.grant = true ∧ env.call2 = none)) ∧
      (req ≠ ActionReq.updateSystem →
        (runAction req st env).err =
          (if env.grant then env.call2 else env.call1).map pk_client_error_fixup) ∧
      (req = ActionReq.updateSystem →
        (runAction req st env).err =
          (if env.grant then
            match env.call2 with
            | none => none
            | some e2 =>
              some (if pk_polkit_client_error_denied_by_policy (some e2) then
                pk_client_error_mk .failedAuth e2.message else e2)
          else some (pk_client_error_mk .failedAuth (gerrorMessage env.call1))))) ∧
    (usesAuthRetry req = false →
      (runAction req st env).ret = false ∧
      (runAction req st env).bus.length = 1 ∧
      (runAction req st env).err = env.call1.map pk_client_error_fixup) := by
  refine ⟨?_, ?_⟩
  · intro hretry
    cases hc1 : env.call1 with
    | none =>
      rw [hc1] at hdenied
      exact Bool.noConfusion hdenied
    | some d1 =>
      cases req <;> try exact Bool.noConfusion hretry
      all_goals (
        cases hg : env.grant <;> cases hc2 : env.call2 <;>
          simp_all [runAction, usesAuthRetry, actionValidates,
            pk_client_install_packages, pk_client_remove_packages, pk_client_update_packages,
            pk_client_install_signature, pk_client_refresh_cache, pk_client_accept_eula,
            pk_client_repo_enable, pk_client_repo_set_data, pk_client_install_files,
            pk_client_update_system, pk_client_update_system_action,
            pk_client_install_package_action, pk_client_remove_packages_action,
            pk_client_update_packages_action, pk_client_install_signature_action,
            pk_client_refresh_cache_action, pk_client_accept_eula_action,
            pk_client_repo_enable_action, pk_client_repo_set_data_action,
            pk_client_install_files_action,
            pk_client_auth_retry, pk_client_proxy_call,
            pk_client_allocate_transaction_id, pk_client_set_tid,
            pk_client_finish_action, pk_client_change_status, gerrorMessage, apply_ite,
            pk_polkit_denied_none])
  · intro hretry
    cases hc1 : env.call1 with
    | none =>
      rw [hc1] at hdenied
      exact Bool.noConfusion hdenied
    | some d1 =>
      cases req <;> try exact Bool.noConfusion hretry
      all_goals
        simp_all [runAction, usesAuthRetry, actionValidates,
          pk_client_get_depends, pk_client_get_update_detail, pk_client_resolve,
          pk_client_rollback, pk_client_get_details, pk_client_get_files,
          pk_client_get_requires, pk_client_get_updates, pk_client_search_details,
          pk_client_search_file, pk_client_search_group, pk_client_search_name,
          pk_client_get_repo_list,
          pk_client_proxy_call, pk_client_allocate_transaction_id, pk_client_set_tid,
          pk_client_finish_action, pk_client_change_status]

theorem C1_policy_retry_witness :
    (runAction (ActionReq.installPackages ["a;1;i386;f"]) pk_client_new
        (envOf (some deniedErr) none true)).bus.length = 2
    ∧ (runAction (ActionReq.installPackages ["a;1;i386;f"]) pk_client_new
        (envOf (some deniedErr) none true)).ret = true := by
  have h := (C1_policy_retry (ActionReq.installPackages ["a;1;i386;f"]) pk_client_new
    (envOf (some deniedErr) none true) "/3_aa" (by decide) rfl rfl rfl (by decide)).1 rfl
  exact ⟨by simpa using h.1, h.2.1.mpr ⟨rfl, rfl⟩⟩

theorem C1_rollback_no_retry_counterexample :
    pk_polkit_client_error_denied_by_policy (some deniedErr) = true
    ∧ (pk_client_rollback pk_client_new (envOf (some deniedErr) none true) "/1_aa").bus.length = 1
    ∧ (pk_client_rollback pk_client_new (envOf (some deniedErr) none true) "/1_aa").ret = false
    ∧ (pk_client_install_packages pk_client_new (envOf (some deniedErr) none false) ["a;1;i386;f"]).err
        = some { deniedErr with code := GErrorCode.client PkClientErrorCode.failed }
    ∧ GErrorCode.client PkClientErrorCode.failed
        ≠ GErrorCode.client PkClientErrorCode.failedAuth := by decide

